import Mathlib

/-!
Verification of the ISEEC calculator scoring engine (`src/app.py`).

The scoring functions of the source are embedded shallowly:
Python floats become exact rationals (`ℚ`) except where a square root
forces real numbers (`ℝ`), Python's `float('inf')` sentinel for
volatility becomes the tagged type `VVol`, and Python lists become
Lean lists.  Every definition mirrors the corresponding source
function line by line.
-/

namespace ISEEC

/-- The ten-item transparency criteria catalog `TRANSP_CRITERIA`. -/
def TRANSP_CRITERIA : List String :=
  [ "Годовой отчет опубликован на официальном сайте"
  , "Финансовая отчетность заверена внешним аудитором"
  , "Опубликован отчет об устойчивом развитии (ESG/КСО)"
  , "Отчетность соответствует международным стандартам (GRI, SASB)"
  , "Раскрыта структура собственности"
  , "Раскрыт состав органов управления с биографиями"
  , "Раскрыто вознаграждение топ-менеджмента"
  , "Раздел существенных фактов обновляется регулярно"
  , "На сайте указаны контакты для инвесторов, СМИ, соискателей"
  , "Доступна англоязычная версия годового отчета или сайта" ]

/-- The institutional-maturity criteria catalog `INST_CRITERIA`:
thirteen criteria, each paired with its point value (5 or 10). -/
def INST_CRITERIA : List (String × ℚ) :=
  [ ("В структуре компании есть подразделение по коммуникациям", 10)
  , ("Руководитель по коммуникациям входит в состав топ-менеджмента", 10)
  , ("На сайте компании публикуются корпоративные новости и указаны контакты пресс-службы", 10)
  , ("На сайте компании регулярно публикуются корпоративные новости — не реже 4 раз в месяц", 10)
  , ("Компания ведет официальное сообщество в VK", 5)
  , ("Компания ведет официальный Telegram-канал", 5)
  , ("Коммуникационная стратегия компании публично доступна (на сайте или в годовом отчете)", 10)
  , ("Предусмотрен механизм обратной связи: горячая линия, контакт-центр, форма обращений и др.", 10)
  , ("Существуют антикризисные коммуникационные процедуры (для внутренней оценки)", 10)
  , ("Руководитель по коммуникациям или компания состоит в профессиональной ассоциации (РАСО, АКМР, АКОС и др.)", 10)
  , ("Награды или признание в области коммуникаций за последние 3 года", 10)
  , ("KPI коммуникационного подразделения привязаны к бизнес-показателям компании (для внутренней оценки)", 10)
  , ("Проводится регулярный (не реже раза в год) мониторинг репутации или восприятия стейкхолдерами", 10) ]

/-- `calculate_i_media`: reach value against the industry reference,
scaled to a percentage and clamped to `[0, 100]`; a non-positive
reference short-circuits to `0`. -/
def calculate_i_media (val_i x_ref : ℚ) : ℚ :=
  if x_ref ≤ 0 then 0
  else
    let i_media := (val_i / x_ref) * 100
    if i_media < 0 then 0
    else if i_media > 100 then 100
    else i_media

/-- Population mean of a list (`np.mean`). -/
def mean (l : List ℚ) : ℚ := l.sum / l.length

/-- Population variance of a list (`np.std(..., ddof=0)` squared):
divisor is the count, not count − 1. -/
def pvariance (l : List ℚ) : ℚ :=
  ((l.map (fun x => (x - mean l) ^ 2)).sum) / l.length

/-- Volatility result: either a finite ratio or the source's
`float('inf')` sentinel, modelled as a tagged case. -/
inductive VVol
  | fin (v : ℝ)
  | inf

/-- The noise threshold computed inline in `calculate_v_vol`:
`(x_ref * 0.01) if x_ref and x_ref > 0 else 1.0`.  A missing,
zero (falsy) or negative reference falls to the absolute floor 1. -/
def vvol_threshold (x_ref : Option ℚ) : ℚ :=
  match x_ref with
  | some x => if 0 < x then x * 0.01 else 1
  | none => 1

/-- `calculate_v_vol`: fewer than 2 observations give 0; a population
mean below the noise threshold gives the infinity sentinel; otherwise
the ratio of population standard deviation to population mean. -/
noncomputable def calculate_v_vol (monthly_values : List ℚ) (x_ref : Option ℚ) : VVol :=
  if monthly_values.length < 2 then .fin 0
  else
    let mu := mean monthly_values
    if mu < vvol_threshold x_ref then .inf
    else .fin (Real.sqrt (pvariance monthly_values) / (mu : ℝ))

/-- `calculate_m_stab`: 0 on the infinity sentinel, else the damping
transform `i_media / (1 + v_vol)`. -/
noncomputable def calculate_m_stab (i_media : ℝ) (v_vol : VVol) : ℝ :=
  match v_vol with
  | .inf => 0
  | .fin v => i_media / (1 + v)

/-- `calculate_v_hr`: percentile from rank and participant count,
clamped to `[0, 100]`; a participant count ≤ 1 gives 0. -/
def calculate_v_hr (rank total : ℤ) : ℚ :=
  if total ≤ 1 then 0
  else
    let v_hr := (1 - ((rank : ℚ) - 1) / ((total : ℚ) - 1)) * 100
    max 0 (min 100 v_hr)

/-- `calculate_r_transp`: 10 points per satisfied indicator, summed
with no shape validation and no cap. -/
def calculate_r_transp (indicators : List Bool) : ℚ :=
  (indicators.map (fun ind => if ind then (10 : ℚ) else 0)).sum

/-- `calculate_r_inst`: sum of the point values of satisfied
indicators over the zipped pairs, capped at 100. -/
def calculate_r_inst (indicators : List Bool) (scores : List ℚ) : ℚ :=
  min ((indicators.zip scores).foldl (fun total p => if p.1 then total + p.2 else total) 0) 100

/-- `calculate_s_rep`: unweighted mean of the three reputation
components. -/
def calculate_s_rep (v_hr r_transp r_inst : ℚ) : ℚ :=
  (v_hr + r_transp + r_inst) / 3

/-- `get_k_budget`: budget-discipline multiplier adjustment. -/
def get_k_budget (plan fact : ℚ) (has_approval : Bool) : ℚ :=
  if plan ≤ 0 then 0
  else
    let deviation := ((fact - plan) / plan) * 100
    if deviation > 10 ∧ has_approval = false then -0.10 else 0

/-- `get_quality_rating`: maps a composite score to a
(level, marker, color) triple, evaluated top-down. -/
def get_quality_rating (value : ℚ) : String × String × String :=
  if value > 100 then ("Очень высокий", "🟢", "#28a745")
  else if value ≥ 76 then ("Высокий", "🟢", "#28a745")
  else if value ≥ 51 then ("Средний", "🟡", "#ffc107")
  else if value ≥ 26 then ("Низкий", "🟠", "#fd7e14")
  else ("Критически низкий", "🔴", "#dc3545")

/-- A recommendation record: area tag, action text, potential point
gain, priority rank (lower = more urgent). -/
structure Recommendation where
  area : String
  action : String
  potential : ℚ
  priority : ℕ
deriving DecidableEq

/-- The employer-brand recommendation appended when `v_hr < 50`. -/
def hr_recommendation : Recommendation :=
  ⟨"HR-бренд", "Принять участие в Рейтинге работодателей России (hh.ru)", 50, 1⟩

/-- The media-activity recommendation appended when `m_stab < 50`. -/
def media_recommendation : Recommendation :=
  ⟨"Медийная активность", "Усилить присутствие в СМИ, увеличить количество публикаций", 30, 1⟩

/-- The comparison used by the source's stable sort with key
`(priority, -potential)`: ascending priority, then descending
potential. -/
def recLE (a b : Recommendation) : Bool :=
  decide (a.priority < b.priority ∨ (a.priority = b.priority ∧ b.potential ≤ a.potential))

/-- The unsorted recommendation list accumulated by
`generate_recommendations` before sorting: one entry per unmet
transparency criterion, one per unmet institutional criterion, and
the two conditional priority-1 entries. -/
def recommendation_candidates (transp_indicators inst_indicators : List Bool)
    (v_hr m_stab : ℚ) : List Recommendation :=
  ((transp_indicators.zip TRANSP_CRITERIA).filter (fun p => !p.1)).map
    (fun p => ⟨"Транспарентность", p.2, 10, 2⟩)
  ++ ((INST_CRITERIA.zip inst_indicators).filter (fun p => !p.2)).map
    (fun p => ⟨"Институциональная зрелость", p.1.1, p.1.2, if p.1.2 = 10 then 2 else 3⟩)
  ++ (if v_hr < 50 then [hr_recommendation] else [])
  ++ (if m_stab < 50 then [media_recommendation] else [])

/-- `generate_recommendations`: accumulate candidates, stable-sort by
(priority ascending, potential descending), keep the first 5.  The
`inst_scores` parameter is accepted but, as in the source, the point
values come from `INST_CRITERIA` itself. -/
def generate_recommendations (transp_indicators inst_indicators : List Bool)
    (inst_scores : List ℚ) (v_hr m_stab : ℚ) : List Recommendation :=
  ((recommendation_candidates transp_indicators inst_indicators v_hr m_stab).mergeSort
    recLE).take 5

/-! ## Helper lemmas shared across claims -/

/-- `calculate_r_transp` is 10 times the number of `true` entries. -/
theorem r_transp_eq_count (l : List Bool) :
    calculate_r_transp l = 10 * (l.count true : ℚ) := by
  induction l with
  | nil => simp [calculate_r_transp]
  | cons b t ih =>
    simp only [calculate_r_transp, List.map_cons, List.sum_cons] at ih ⊢
    rw [ih, List.count_cons]
    cases b
    · norm_num
    · push_cast
      norm_num
      ring

/-- The accumulating loop of `calculate_r_inst` is a sum over the
zipped pairs. -/
theorem r_inst_foldl_eq_sum (l : List (Bool × ℚ)) (init : ℚ) :
    l.foldl (fun total p => if p.1 then total + p.2 else total) init =
      init + (l.map (fun p => if p.1 then p.2 else 0)).sum := by
  induction l generalizing init with
  | nil => simp
  | cons p t ih =>
    simp only [List.foldl_cons, List.map_cons, List.sum_cons, ih]
    cases h : p.1
    · simp
    · simp
      ring

/-- `calculate_r_inst` in closed form: the capped sum of the satisfied
criteria's points. -/
theorem r_inst_eq_min_sum (indicators : List Bool) (scores : List ℚ) :
    calculate_r_inst indicators scores =
      min (((indicators.zip scores).map (fun p => if p.1 then p.2 else 0)).sum) 100 := by
  rw [calculate_r_inst, r_inst_foldl_eq_sum, zero_add]

/-! ## Claim theorems -/

/-- C2: `get_quality_rating` maps every score to one of five ordinal
bands, evaluated top-down with first match winning; 100 gives "High"
(Высокий), 100.0001 gives "Very High" (Очень высокий), 76 gives
"High", 75.9999 gives "Medium" (Средний), and every score strictly
greater than 100 gives "Very High". -/
theorem quality_rating_bands :
    (∀ v : ℚ,
        get_quality_rating v = ("Очень высокий", "🟢", "#28a745") ∨
        get_quality_rating v = ("Высокий", "🟢", "#28a745") ∨
        get_quality_rating v = ("Средний", "🟡", "#ffc107") ∨
        get_quality_rating v = ("Низкий", "🟠", "#fd7e14") ∨
        get_quality_rating v = ("Критически низкий", "🔴", "#dc3545")) ∧
    get_quality_rating 100 = ("Высокий", "🟢", "#28a745") ∧
    get_quality_rating 100.0001 = ("Очень высокий", "🟢", "#28a745") ∧
    get_quality_rating 76 = ("Высокий", "🟢", "#28a745") ∧
    get_quality_rating 75.9999 = ("Средний", "🟡", "#ffc107") ∧
    (∀ v : ℚ, 100 < v → get_quality_rating v = ("Очень высокий", "🟢", "#28a745")) := by
  refine ⟨?_, ?_, ?_, ?_, ?_, ?_⟩
  · intro v
    unfold get_quality_rating
    split_ifs <;> tauto
  · norm_num [get_quality_rating]
  · norm_num [get_quality_rating]
  · norm_num [get_quality_rating]
  · norm_num [get_quality_rating]
  · intro v h
    rw [get_quality_rating, if_pos h]

/-- Witness for C2 at the concrete score 101. -/
theorem quality_rating_bands_witness :
    (100 : ℚ) < 101 ∧ get_quality_rating 101 = ("Очень высокий", "🟢", "#28a745") :=
  ⟨by norm_num, quality_rating_bands.2.2.2.2.2 101 (by norm_num)⟩

/-- C6: `get_k_budget` is 0 whenever `plan ≤ 0`; for positive plans it
is −0.10 exactly when the deviation exceeds +10% without approval and
0 in every other case; approval always suppresses the penalty; the
two worked examples from the specification hold. -/
theorem k_budget_spec :
    (∀ plan fact : ℚ, ∀ ap : Bool, plan ≤ 0 → get_k_budget plan fact ap = 0) ∧
    (∀ plan fact : ℚ, ∀ ap : Bool, 0 < plan →
        (get_k_budget plan fact ap = -0.10 ↔
          (10 < ((fact - plan) / plan) * 100 ∧ ap = false)) ∧
        (¬(10 < ((fact - plan) / plan) * 100 ∧ ap = false) →
          get_k_budget plan fact ap = 0)) ∧
    (∀ plan fact : ℚ, get_k_budget plan fact true = 0) ∧
    get_k_budget 430 450 false = 0 ∧
    get_k_budget 430 480 false = -0.10 := by
  refine ⟨?_, ?_, ?_, ?_, ?_⟩
  · intro plan fact ap h
    rw [get_k_budget, if_pos h]
  · intro plan fact ap h
    rw [get_k_budget, if_neg (not_le.2 h)]
    simp only []
    constructor
    · split_ifs with hc
      · simp only [true_iff]
        exact hc
      · constructor
        · intro h0
          norm_num at h0
        · intro hc2
          exact absurd hc2 hc
    · intro hc
      rw [if_neg hc]
  · intro plan fact
    unfold get_k_budget
    split_ifs <;> simp_all
  · norm_num [get_k_budget]
  · norm_num [get_k_budget]

/-- Witness for C6 at plan 430, fact 480, no approval. -/
theorem k_budget_spec_witness :
    (0 : ℚ) < 430 ∧
      (get_k_budget 430 480 false = -0.10 ↔
        (10 < (((480 : ℚ) - 430) / 430) * 100 ∧ false = false)) :=
  ⟨by norm_num, (k_budget_spec.2.1 430 480 false (by norm_num)).1⟩

/-- C8: for positive references `calculate_i_media` is the clamp of
`(value / x_ref) * 100` to `[0, 100]` and hence lies in `[0, 100]`;
for non-positive references it returns 0 from the guard branch. -/
theorem i_media_clamped :
    (∀ v x : ℚ, 0 < x →
        calculate_i_media v x = max 0 (min 100 ((v / x) * 100)) ∧
        0 ≤ calculate_i_media v x ∧ calculate_i_media v x ≤ 100) ∧
    (∀ v x : ℚ, x ≤ 0 → calculate_i_media v x = 0) := by
  constructor
  · intro v x hx
    rw [calculate_i_media, if_neg (not_le.2 hx)]
    simp only []
    split_ifs with h1 h2
    · refine ⟨?_, le_refl 0, by norm_num⟩
      rw [min_eq_right (by linarith), max_eq_left (by linarith)]
    · refine ⟨?_, by norm_num, le_refl 100⟩
      rw [min_eq_left (by linarith), max_eq_right (by norm_num)]
    · push_neg at h1 h2
      refine ⟨?_, h1, h2⟩
      rw [min_eq_right h2, max_eq_right h1]
  · intro v x hx
    rw [calculate_i_media, if_pos hx]

/-- Witness for C8 at value 45000, reference 45000 (and at a
non-positive reference). -/
theorem i_media_clamped_witness :
    ((0 : ℚ) < 45000 ∧ calculate_i_media 45000 45000 = max 0 (min 100 (((45000 : ℚ) / 45000) * 100))) ∧
      ((0 : ℚ) ≤ 0 ∧ calculate_i_media 7 0 = 0) :=
  ⟨⟨by norm_num, (i_media_clamped.1 45000 45000 (by norm_num)).1⟩,
   ⟨le_refl 0, i_media_clamped.2 7 0 (by norm_num)⟩⟩

/-- C9: `calculate_v_hr` is 0 for any participant count ≤ 1; for
counts above 1 it is the clamp of `(1 − (rank−1)/(total−1)) × 100` to
`[0, 100]`; rank 45 of 700 gives 65500/699 ≈ 93.7. -/
theorem v_hr_spec :
    (∀ r t : ℤ, t ≤ 1 → calculate_v_hr r t = 0) ∧
    (∀ r t : ℤ, 1 < t →
        calculate_v_hr r t =
          max 0 (min 100 ((1 - ((r : ℚ) - 1) / ((t : ℚ) - 1)) * 100))) ∧
    calculate_v_hr 45 700 = 65500 / 699 ∧
    (937 / 10 : ℚ) ≤ calculate_v_hr 45 700 ∧ calculate_v_hr 45 700 ≤ 9371 / 100 := by
  have h700 : calculate_v_hr 45 700 = 65500 / 699 := by
    rw [calculate_v_hr, if_neg (by norm_num)]
    simp only []
    rw [min_eq_right (by norm_num), max_eq_right (by norm_num)]
    norm_num
  refine ⟨?_, ?_, h700, ?_, ?_⟩
  · intro r t h
    rw [calculate_v_hr, if_pos h]
  · intro r t h
    rw [calculate_v_hr, if_neg (not_le.2 h)]
  · rw [h700]; norm_num
  · rw [h700]; norm_num

/-- Witness for C9 at rank 45 of 700 and at a single participant. -/
theorem v_hr_spec_witness :
    ((700 : ℤ) > 1 ∧
      calculate_v_hr 45 700 =
        max 0 (min 100 ((1 - (((45 : ℤ) : ℚ) - 1) / (((700 : ℤ) : ℚ) - 1)) * 100))) ∧
      ((1 : ℤ) ≤ 1 ∧ calculate_v_hr 3 1 = 0) :=
  ⟨⟨by norm_num, v_hr_spec.2.1 45 700 (by norm_num)⟩,
   ⟨le_refl 1, v_hr_spec.1 3 1 (by norm_num)⟩⟩

/-- C10: `calculate_r_transp` performs no shape validation and no
capping: on any boolean list it returns 10 times the number of `true`
entries, so any list with more than ten `true` entries is longer than
the ten-item catalog and yields a value strictly above 100; eleven
`true` entries yield 110. -/
theorem r_transp_uncapped :
    (∀ l : List Bool, calculate_r_transp l = 10 * (l.count true : ℚ)) ∧
    (∀ l : List Bool, 10 < l.count true →
        TRANSP_CRITERIA.length < l.length ∧ 100 < calculate_r_transp l) ∧
    calculate_r_transp (List.replicate 11 true) = 110 := by
  refine ⟨r_transp_eq_count, ?_, ?_⟩
  · intro l h
    constructor
    · have hc := l.count_le_length true
      have hlen : TRANSP_CRITERIA.length = 10 := rfl
      omega
    · rw [r_transp_eq_count]
      have h11 : (11 : ℚ) ≤ (l.count true : ℚ) := by exact_mod_cast h
      linarith
  · rw [r_transp_eq_count]
    norm_num

/-- Witness for C10 on the all-true list of length 11. -/
theorem r_transp_uncapped_witness :
    10 < (List.replicate 11 true).count true ∧
      100 < calculate_r_transp (List.replicate 11 true) :=
  ⟨by decide, (r_transp_uncapped.2.1 (List.replicate 11 true) (by decide)).2⟩

/-- C1 counterexample: the raw maximum total of the catalog's point
values is 120, not 100: on the all-true indicator vector the uncapped
sum of satisfied criteria's points is 120, exceeding 100, and
`calculate_r_inst` returns 100, not that sum unchanged — the cap is
not a no-op. -/
theorem inst_cap_counterexample :
    (((List.replicate 13 true).zip (INST_CRITERIA.map Prod.snd)).map
        (fun p => if p.1 then p.2 else 0)).sum = 120 ∧
    ¬((((List.replicate 13 true).zip (INST_CRITERIA.map Prod.snd)).map
        (fun p => if p.1 then p.2 else 0)).sum ≤ 100) ∧
    calculate_r_inst (List.replicate 13 true) (INST_CRITERIA.map Prod.snd) = 100 ∧
    calculate_r_inst (List.replicate 13 true) (INST_CRITERIA.map Prod.snd) ≠
      (((List.replicate 13 true).zip (INST_CRITERIA.map Prod.snd)).map
        (fun p => if p.1 then p.2 else 0)).sum := by
  have hsum : (((List.replicate 13 true).zip (INST_CRITERIA.map Prod.snd)).map
      (fun p => if p.1 then p.2 else 0)).sum = 120 := by
    norm_num [INST_CRITERIA, List.replicate]
  have hinst : calculate_r_inst (List.replicate 13 true) (INST_CRITERIA.map Prod.snd) = 100 := by
    rw [r_inst_eq_min_sum, hsum]
    norm_num
  exact ⟨hsum, by rw [hsum]; norm_num, hinst, by rw [hsum, hinst]; norm_num⟩

/-- C1 amended: the catalog's raw maximum total of point values is
120, so the cap at 100 in `calculate_r_inst` is effective, not a
no-op: `calculate_r_inst` returns the minimum of the uncapped sum and
100; it returns the sum unchanged only when that sum is at most 100,
and on the all-true vector (uncapped sum 120) it returns 100. -/
theorem inst_cap_effective :
    (INST_CRITERIA.map Prod.snd).sum = 120 ∧
    (∀ indicators : List Bool,
        calculate_r_inst indicators (INST_CRITERIA.map Prod.snd) =
          min (((indicators.zip (INST_CRITERIA.map Prod.snd)).map
              (fun p => if p.1 then p.2 else 0)).sum) 100) ∧
    (∀ indicators : List Bool,
        (((indicators.zip (INST_CRITERIA.map Prod.snd)).map
            (fun p => if p.1 then p.2 else 0)).sum ≤ 100) →
          calculate_r_inst indicators (INST_CRITERIA.map Prod.snd) =
            (((indicators.zip (INST_CRITERIA.map Prod.snd)).map
              (fun p => if p.1 then p.2 else 0)).sum)) ∧
    calculate_r_inst (List.replicate 13 true) (INST_CRITERIA.map Prod.snd) = 100 := by
  refine ⟨?_, ?_, ?_, ?_⟩
  · norm_num [INST_CRITERIA]
  · intro indicators
    exact r_inst_eq_min_sum indicators (INST_CRITERIA.map Prod.snd)
  · intro indicators h
    rw [r_inst_eq_min_sum, min_eq_left h]
  · rw [r_inst_eq_min_sum]
    norm_num [INST_CRITERIA, List.replicate]

/-- Witness for C1's amended claim on the all-false vector, whose
uncapped sum 0 is within the cap and is returned unchanged. -/
theorem inst_cap_effective_witness :
    ((((List.replicate 13 false).zip (INST_CRITERIA.map Prod.snd)).map
        (fun p => if p.1 then p.2 else 0)).sum ≤ 100) ∧
      calculate_r_inst (List.replicate 13 false) (INST_CRITERIA.map Prod.snd) =
        (((List.replicate 13 false).zip (INST_CRITERIA.map Prod.snd)).map
          (fun p => if p.1 then p.2 else 0)).sum :=
  ⟨by norm_num [INST_CRITERIA, List.replicate],
   inst_cap_effective.2.2.1 (List.replicate 13 false)
     (by norm_num [INST_CRITERIA, List.replicate])⟩

/-- C7: for vectors matching the ten-item transparency catalog,
`calculate_r_transp` lies in `[0, 100]`; for vectors matching the
institutional catalog with its point values, `calculate_r_inst` lies
in `[0, 100]` even though the raw sum may exceed 100; and
`calculate_s_rep` is the unweighted mean of its three inputs and lies
in `[0, 100]` whenever each input does. -/
theorem subindex_bounds :
    (∀ inds : List Bool, inds.length = TRANSP_CRITERIA.length →
        0 ≤ calculate_r_transp inds ∧ calculate_r_transp inds ≤ 100) ∧
    (∀ inds : List Bool, inds.length = INST_CRITERIA.length →
        0 ≤ calculate_r_inst inds (INST_CRITERIA.map Prod.snd) ∧
        calculate_r_inst inds (INST_CRITERIA.map Prod.snd) ≤ 100) ∧
    (∀ a b c : ℚ, 0 ≤ a → a ≤ 100 → 0 ≤ b → b ≤ 100 → 0 ≤ c → c ≤ 100 →
        calculate_s_rep a b c = (a + b + c) / 3 ∧
        0 ≤ calculate_s_rep a b c ∧ calculate_s_rep a b c ≤ 100) := by
  refine ⟨?_, ?_, ?_⟩
  · intro inds hlen
    rw [r_transp_eq_count]
    constructor
    · positivity
    · have hc : inds.count true ≤ inds.length := inds.count_le_length true
      have h10 : TRANSP_CRITERIA.length = 10 := rfl
      have : (inds.count true : ℚ) ≤ 10 := by exact_mod_cast (by omega : inds.count true ≤ 10)
      linarith
  · intro inds _
    rw [r_inst_eq_min_sum]
    constructor
    · apply le_min _ (by norm_num)
      apply List.sum_nonneg
      intro x hx
      obtain ⟨p, hp, rfl⟩ := List.mem_map.1 hx
      have hq : (0 : ℚ) ≤ p.2 := by
        have hmem : p.2 ∈ INST_CRITERIA.map Prod.snd := (List.of_mem_zip hp).2
        have hall : ∀ q ∈ INST_CRITERIA.map Prod.snd, (0 : ℚ) ≤ q := by
          norm_num [INST_CRITERIA, List.forall_mem_cons]
        exact hall p.2 hmem
      split_ifs
      · exact hq
      · exact le_refl 0
    · exact min_le_right _ 100
  · intro a b c ha ha' hb hb' hc hc'
    refine ⟨rfl, ?_, ?_⟩
    · rw [calculate_s_rep]; linarith
    · rw [calculate_s_rep]; linarith

/-- Witness for C7 at the all-true transparency vector, the all-true
institutional vector, and the component triple (50, 100, 0). -/
theorem subindex_bounds_witness :
    ((List.replicate 10 true).length = TRANSP_CRITERIA.length ∧
      calculate_r_transp (List.replicate 10 true) ≤ 100) ∧
    ((List.replicate 13 true).length = INST_CRITERIA.length ∧
      calculate_r_inst (List.replicate 13 true) (INST_CRITERIA.map Prod.snd) ≤ 100) ∧
    (calculate_s_rep 50 100 0 = ((50 : ℚ) + 100 + 0) / 3 ∧
      0 ≤ calculate_s_rep 50 100 0 ∧ calculate_s_rep 50 100 0 ≤ 100) :=
  ⟨⟨rfl, (subindex_bounds.1 (List.replicate 10 true) rfl).2⟩,
   ⟨rfl, (subindex_bounds.2.1 (List.replicate 13 true) rfl).2⟩,
   subindex_bounds.2.2 50 100 0 (by norm_num) (by norm_num) (by norm_num)
     (by norm_num) (by norm_num) (by norm_num)⟩

/-- C3: `calculate_v_vol` returns 0 for series with fewer than 2
observations; the noise threshold is 1% of a supplied positive
reference and the absolute floor 1 otherwise; a population mean below
the threshold gives the infinity sentinel, and otherwise the result
is population standard deviation over population mean; the constant
12-month series at 3900 with reference 45000 gives volatility 0. -/
theorem v_vol_spec :
    (∀ x : ℚ, 0 < x → vvol_threshold (some x) = x * 0.01) ∧
    (∀ x : ℚ, ¬0 < x → vvol_threshold (some x) = 1) ∧
    vvol_threshold none = 1 ∧
    (∀ (l : List ℚ) (xr : Option ℚ), l.length < 2 → calculate_v_vol l xr = VVol.fin 0) ∧
    (∀ (l : List ℚ) (xr : Option ℚ), 2 ≤ l.length → mean l < vvol_threshold xr →
        calculate_v_vol l xr = VVol.inf) ∧
    (∀ (l : List ℚ) (xr : Option ℚ), 2 ≤ l.length → vvol_threshold xr ≤ mean l →
        calculate_v_vol l xr = VVol.fin (Real.sqrt (pvariance l) / (mean l : ℝ))) ∧
    calculate_v_vol (List.replicate 12 3900) (some 45000) = VVol.fin 0 := by
  have hfin : ∀ (l : List ℚ) (xr : Option ℚ), 2 ≤ l.length → vvol_threshold xr ≤ mean l →
      calculate_v_vol l xr = VVol.fin (Real.sqrt (pvariance l) / (mean l : ℝ)) := by
    intro l xr h1 h2
    rw [calculate_v_vol, if_neg (by omega)]
    simp only []
    rw [if_neg (not_lt.2 h2)]
  have hmean : mean (List.replicate 12 (3900 : ℚ)) = 3900 := by
    simp [mean, List.sum_replicate]
    norm_num
  have hvar : pvariance (List.replicate 12 (3900 : ℚ)) = 0 := by
    rw [pvariance, hmean]
    simp [List.map_replicate, List.sum_replicate]
  refine ⟨?_, ?_, rfl, ?_, ?_, hfin, ?_⟩
  · intro x hx
    rw [vvol_threshold, if_pos hx]
  · intro x hx
    rw [vvol_threshold, if_neg hx]
  · intro l xr h
    rw [calculate_v_vol, if_pos h]
  · intro l xr h1 h2
    rw [calculate_v_vol, if_neg (by omega)]
    simp only []
    rw [if_pos h2]
  · rw [hfin (List.replicate 12 3900) (some 45000) (by simp)
      (by rw [hmean, vvol_threshold, if_pos (by norm_num)]; norm_num)]
    rw [hvar, hmean]
    simp

/-- Witness for C3 on a one-element series (too short) and a
two-element zero series (mean below the absolute floor). -/
theorem v_vol_spec_witness :
    ([(1 : ℚ)].length < 2 ∧ calculate_v_vol [(1 : ℚ)] none = VVol.fin 0) ∧
      (2 ≤ [(0 : ℚ), 0].length ∧ mean [(0 : ℚ), 0] < vvol_threshold none ∧
        calculate_v_vol [(0 : ℚ), 0] none = VVol.inf) :=
  ⟨⟨by norm_num, v_vol_spec.2.2.2.1 [(1 : ℚ)] none (by norm_num)⟩,
   ⟨by norm_num, by norm_num [mean, vvol_threshold],
    v_vol_spec.2.2.2.2.1 [(0 : ℚ), 0] none (by norm_num)
      (by norm_num [mean, vvol_threshold])⟩⟩

/-- C4 counterexample: the claim's "never reaches 0" and "never
increases" parts fail for degenerate fixed `i_media` values: at
`i_media = 0` the result is exactly 0 already at the finite
volatility 1, and at `i_media = -1` increasing the volatility from 0
to 1 strictly increases the result. -/
theorem m_stab_counterexample :
    calculate_m_stab 0 (VVol.fin 1) = 0 ∧
    calculate_m_stab (-1) (VVol.fin 0) = -1 ∧
    calculate_m_stab (-1) (VVol.fin 1) = -(1 / 2) ∧
    calculate_m_stab (-1) (VVol.fin 0) < calculate_m_stab (-1) (VVol.fin 1) := by
  refine ⟨?_, ?_, ?_, ?_⟩
  all_goals simp [calculate_m_stab]
  all_goals norm_num

/-- C4 amended: `calculate_m_stab` is 0 on the infinity sentinel and
equals `i_media` at volatility 0; for fixed nonnegative `i_media`
increasing finite nonnegative volatility never increases the result;
for fixed positive `i_media` the result stays strictly positive
(never reaches 0) at every nonnegative finite volatility and tends to
0 as volatility grows. -/
theorem m_stab_damping :
    (∀ i : ℝ, calculate_m_stab i VVol.inf = 0) ∧
    (∀ i : ℝ, calculate_m_stab i (VVol.fin 0) = i) ∧
    (∀ i v w : ℝ, 0 ≤ i → 0 ≤ v → v ≤ w →
        calculate_m_stab i (VVol.fin w) ≤ calculate_m_stab i (VVol.fin v)) ∧
    (∀ i v : ℝ, 0 < i → 0 ≤ v → 0 < calculate_m_stab i (VVol.fin v)) ∧
    (∀ i : ℝ, Filter.Tendsto (fun v : ℝ => calculate_m_stab i (VVol.fin v))
        Filter.atTop (nhds 0)) := by
  refine ⟨fun i => rfl, ?_, ?_, ?_, ?_⟩
  · intro i
    simp [calculate_m_stab]
  · intro i v w hi hv hvw
    simp only [calculate_m_stab]
    rw [div_le_div_iff₀ (by linarith) (by linarith)]
    nlinarith
  · intro i v hi hv
    simp only [calculate_m_stab]
    exact div_pos hi (by linarith)
  · intro i
    simp only [calculate_m_stab]
    exact Filter.Tendsto.div_atTop tendsto_const_nhds
      (Filter.tendsto_atTop_add_const_left _ 1 Filter.tendsto_id)

/-- Witness for C4's amended claim at `i_media = 100` and volatilities
1 and 2. -/
theorem m_stab_damping_witness :
    ((0 : ℝ) ≤ 100 ∧ (0 : ℝ) ≤ 1 ∧ (1 : ℝ) ≤ 2 ∧
      calculate_m_stab 100 (VVol.fin 2) ≤ calculate_m_stab 100 (VVol.fin 1)) ∧
      ((0 : ℝ) < 100 ∧ 0 < calculate_m_stab 100 (VVol.fin 1)) :=
  ⟨⟨by norm_num, by norm_num, by norm_num,
    m_stab_damping.2.2.1 100 1 2 (by norm_num) (by norm_num) (by norm_num)⟩,
   ⟨by norm_num, m_stab_damping.2.2.2.1 100 1 (by norm_num) (by norm_num)⟩⟩

/-! ## Recommendation engine lemmas -/

/-- The sort comparison unfolded to its ordering proposition. -/
theorem recLE_iff (a b : Recommendation) :
    recLE a b = true ↔
      (a.priority < b.priority ∨ (a.priority = b.priority ∧ b.potential ≤ a.potential)) := by
  simp [recLE]

/-- The sort comparison is transitive. -/
theorem recLE_trans : ∀ a b c : Recommendation,
    recLE a b = true → recLE b c = true → recLE a c = true := by
  intro a b c hab hbc
  rw [recLE_iff] at hab hbc ⊢
  rcases hab with h | ⟨h1, h2⟩
  · rcases hbc with h' | ⟨h1', _⟩
    · exact Or.inl (h.trans h')
    · exact Or.inl (h1' ▸ h)
  · rcases hbc with h' | ⟨h1', h2'⟩
    · exact Or.inl (h1 ▸ h')
    · exact Or.inr ⟨h1.trans h1', h2'.trans h2⟩

/-- The sort comparison is total. -/
theorem recLE_total : ∀ a b : Recommendation, recLE a b || recLE b a := by
  intro a b
  rw [Bool.or_eq_true, recLE_iff, recLE_iff]
  rcases lt_trichotomy a.priority b.priority with h | h | h
  · exact Or.inl (Or.inl h)
  · rcases le_total b.potential a.potential with hp | hp
    · exact Or.inl (Or.inr ⟨h, hp⟩)
    · exact Or.inr (Or.inr ⟨h.symm, hp⟩)
  · exact Or.inr (Or.inl h)

/-- Every accumulated candidate has priority at least 1. -/
theorem candidates_priority_pos (ti ii : List Bool) (vhr mstab : ℚ) :
    ∀ r ∈ recommendation_candidates ti ii vhr mstab, 1 ≤ r.priority := by
  intro r hr
  simp only [recommendation_candidates, List.mem_append] at hr
  rcases hr with ((h | h) | h) | h
  · obtain ⟨p, _, rfl⟩ := List.mem_map.1 h
    norm_num
  · obtain ⟨p, _, rfl⟩ := List.mem_map.1 h
    show 1 ≤ (if p.1.2 = 10 then 2 else 3)
    split_ifs <;> norm_num
  · rcases em (vhr < 50) with hv | hv
    · rw [if_pos hv] at h
      rw [List.mem_singleton.1 h]
      norm_num [hr_recommendation]
    · rw [if_neg hv] at h
      exact absurd h (List.not_mem_nil r)
  · rcases em (mstab < 50) with hv | hv
    · rw [if_pos hv] at h
      rw [List.mem_singleton.1 h]
      norm_num [media_recommendation]
    · rw [if_neg hv] at h
      exact absurd h (List.not_mem_nil r)

/-- At most two candidates (the two conditional systemic items) carry
priority 1. -/
theorem candidates_countP_le_two (ti ii : List Bool) (vhr mstab : ℚ) :
    (recommendation_candidates ti ii vhr mstab).countP (fun r => r.priority == 1) ≤ 2 := by
  rw [recommendation_candidates]
  rw [List.countP_append, List.countP_append, List.countP_append]
  have hA : (((ti.zip TRANSP_CRITERIA).filter (fun p => !p.1)).map
      (fun p => (⟨"Транспарентность", p.2, 10, 2⟩ : Recommendation))).countP
      (fun r => r.priority == 1) = 0 := by
    rw [List.countP_eq_zero]
    intro a ha
    obtain ⟨p, _, rfl⟩ := List.mem_map.1 ha
    simp
  have hB : (((INST_CRITERIA.zip ii).filter (fun p => !p.2)).map
      (fun p => (⟨"Институциональная зрелость", p.1.1, p.1.2,
        if p.1.2 = 10 then 2 else 3⟩ : Recommendation))).countP
      (fun r => r.priority == 1) = 0 := by
    rw [List.countP_eq_zero]
    intro a ha
    obtain ⟨p, _, rfl⟩ := List.mem_map.1 ha
    show ¬((if p.1.2 = 10 then 2 else 3) == 1) = true
    split_ifs <;> simp
  have hC : (if vhr < 50 then [hr_recommendation] else []).countP
      (fun r => r.priority == 1) ≤ 1 := by
    refine le_trans (List.countP_le_length _) ?_
    split_ifs <;> simp
  have hD : (if mstab < 50 then [media_recommendation] else []).countP
      (fun r => r.priority == 1) ≤ 1 := by
    refine le_trans (List.countP_le_length _) ?_
    split_ifs <;> simp
  omega

/-- In the sorted candidate list, any priority-1 element survives
truncation to the first five entries: the at most two priority-1
elements sort to the front. -/
theorem mem_take_five_of_priority_one (cands : List Recommendation)
    (hcnt : cands.countP (fun r => r.priority == 1) ≤ 2)
    (hpos : ∀ r ∈ cands, 1 ≤ r.priority)
    {x : Recommendation} (hx : x ∈ cands) (hx1 : x.priority = 1) :
    x ∈ (cands.mergeSort recLE).take 5 := by
  set s := cands.mergeSort recLE with hs
  by_contra hmem
  have hxs : x ∈ s := by
    rw [hs]
    exact List.mem_mergeSort.2 hx
  have hsplit : x ∈ s.take 5 ∨ x ∈ s.drop 5 := by
    rw [← List.take_append_drop 5 s] at hxs
    exact List.mem_append.1 hxs
  have hxd : x ∈ s.drop 5 := hsplit.resolve_left hmem
  have hpair : s.Pairwise (fun a b => recLE a b = true) := by
    rw [hs]
    exact List.sorted_mergeSort recLE_trans recLE_total cands
  have happ : ∀ a ∈ s.take 5, ∀ b ∈ s.drop 5, recLE a b = true := by
    rw [← List.take_append_drop 5 s] at hpair
    exact (List.pairwise_append.1 hpair).2.2
  have hlen5 : (s.take 5).length = 5 := by
    rw [List.length_take]
    have h6 : 6 ≤ s.length := by
      by_contra hL
      push_neg at hL
      have hnil : s.drop 5 = [] := List.drop_eq_nil_of_le (by omega)
      rw [hnil] at hxd
      exact absurd hxd (List.not_mem_nil x)
    omega
  have htake1 : ∀ y ∈ s.take 5, y.priority = 1 := by
    intro y hy
    have hle := happ y hy x hxd
    have h1y : 1 ≤ y.priority := by
      apply hpos
      rw [hs] at hy
      exact List.mem_mergeSort.1 (List.mem_of_mem_take hy)
    rcases (recLE_iff _ _).1 hle with h | ⟨h, _⟩ <;> omega
  have hc_take : (s.take 5).countP (fun r => r.priority == 1) = 5 := by
    have heq : (s.take 5).countP (fun r => r.priority == 1) = (s.take 5).length :=
      List.countP_eq_length.2 (fun a ha => by simp [htake1 a ha])
    rw [heq, hlen5]
  have hc_drop : 1 ≤ (s.drop 5).countP (fun r => r.priority == 1) :=
    List.countP_pos_iff.2 ⟨x, hxd, by simp [hx1]⟩
  have hc_perm : s.countP (fun r => r.priority == 1) =
      cands.countP (fun r => r.priority == 1) := by
    rw [hs]
    exact (List.mergeSort_perm cands recLE).countP_eq _
  have hc_split : s.countP (fun r => r.priority == 1) =
      (s.take 5).countP (fun r => r.priority == 1) +
        (s.drop 5).countP (fun r => r.priority == 1) := by
    conv_lhs => rw [← List.take_append_drop 5 s]
    rw [List.countP_append]
  omega

/-- C5: `generate_recommendations` always returns at most 5 entries,
sorted ascending by priority and, within equal priority, descending
by potential; every priority-1 element precedes every element of
other priorities; each conditional priority-1 item, when triggered,
is present in the returned list; and the underlying sort is stable:
any comparison-sorted sublist of the candidate order survives into
the sorted list. -/
theorem recommendations_spec :
    ∀ (ti ii : List Bool) (isc : List ℚ) (vhr mstab : ℚ),
      (generate_recommendations ti ii isc vhr mstab).length ≤ 5 ∧
      List.Pairwise
        (fun a b => a.priority < b.priority ∨
          (a.priority = b.priority ∧ b.potential ≤ a.potential))
        (generate_recommendations ti ii isc vhr mstab) ∧
      List.Pairwise (fun a b => b.priority = 1 → a.priority = 1)
        (generate_recommendations ti ii isc vhr mstab) ∧
      (vhr < 50 → hr_recommendation ∈ generate_recommendations ti ii isc vhr mstab) ∧
      (mstab < 50 → media_recommendation ∈ generate_recommendations ti ii isc vhr mstab) ∧
      (∀ c : List Recommendation, List.Pairwise (fun a b => recLE a b = true) c →
          c.Sublist (recommendation_candidates ti ii vhr mstab) →
          c.Sublist ((recommendation_candidates ti ii vhr mstab).mergeSort recLE)) := by
  intro ti ii isc vhr mstab
  have hout : generate_recommendations ti ii isc vhr mstab =
      ((recommendation_candidates ti ii vhr mstab).mergeSort recLE).take 5 := rfl
  have hsorted_s : ((recommendation_candidates ti ii vhr mstab).mergeSort recLE).Pairwise
      (fun a b => recLE a b = true) :=
    List.sorted_mergeSort recLE_trans recLE_total _
  have hsorted_out : (((recommendation_candidates ti ii vhr mstab).mergeSort recLE).take 5).Pairwise
      (fun a b => recLE a b = true) :=
    hsorted_s.sublist (List.take_sublist 5 _)
  have hmem_out : ∀ r ∈ ((recommendation_candidates ti ii vhr mstab).mergeSort recLE).take 5,
      1 ≤ r.priority := fun r hr =>
    candidates_priority_pos ti ii vhr mstab r
      (List.mem_mergeSort.1 (List.mem_of_mem_take hr))
  refine ⟨?_, ?_, ?_, ?_, ?_, ?_⟩
  · rw [hout, List.length_take]
    exact min_le_left 5 _
  · rw [hout]
    exact hsorted_out.imp (fun h => (recLE_iff _ _).1 h)
  · rw [hout]
    refine List.Pairwise.imp_of_mem ?_ hsorted_out
    intro a b ha hb hab h1
    have h1a := hmem_out a ha
    rcases (recLE_iff _ _).1 hab with h | ⟨h, _⟩ <;> omega
  · intro h
    rw [hout]
    refine mem_take_five_of_priority_one _ (candidates_countP_le_two ti ii vhr mstab)
      (candidates_priority_pos ti ii vhr mstab) ?_ rfl
    simp [recommendation_candidates, h]
  · intro h
    rw [hout]
    refine mem_take_five_of_priority_one _ (candidates_countP_le_two ti ii vhr mstab)
      (candidates_priority_pos ti ii vhr mstab) ?_ rfl
    simp [recommendation_candidates, h]
  · intro c hcp hcs
    exact List.sublist_mergeSort recLE_trans recLE_total hcp hcs

/-- Witness for C5 at a concrete input with both systemic weaknesses
triggered. -/
theorem recommendations_spec_witness :
    ((30 : ℚ) < 50 ∧
      hr_recommendation ∈ generate_recommendations (List.replicate 10 true)
        (List.replicate 13 true) (INST_CRITERIA.map Prod.snd) 30 80) ∧
      (generate_recommendations (List.replicate 10 true) (List.replicate 13 true)
          (INST_CRITERIA.map Prod.snd) 30 80).length ≤ 5 :=
  ⟨⟨by norm_num,
    (recommendations_spec (List.replicate 10 true) (List.replicate 13 true)
      (INST_CRITERIA.map Prod.snd) 30 80).2.2.2.1 (by norm_num)⟩,
   (recommendations_spec (List.replicate 10 true) (List.replicate 13 true)
      (INST_CRITERIA.map Prod.snd) 30 80).1⟩

end ISEEC
